import Mathlib

/-!
Shallow embedding of the repository sources:
- the css selector builder object (source file: unnamed part_000), a stateful
  object with a text accumulator `result` and a list `index` of category ranks
  already pushed (1 element, 2 id, 3 class, 4 attribute, 5 pseudo-class,
  6 pseudo-element);
- the string-task functions `encodeToRot13`, `getCardId`,
  `getRectangleString`, `isString` (source file: 01-strings-tasks.js).

JS throw is modelled with `Except`: the error value carries the error kind and
the state of the object after the mutations performed on the error path
(the source sets `this.index = []` before every throw, leaving `this.result`
untouched). A successful call returns the state of the builder object that the
method returns (for `element` this is a fresh copy; the other methods mutate
and return `this`).
-/

/-- The two error kinds of the selector builder: the source throws a plain
Error whose message distinguishes the duplicate-fragment case from the
wrong-order case. -/
inductive SelErr where
  | duplicate
  | order
deriving DecidableEq, Repr

/-- State of the builder object: the accumulated text `result` and the list
`index` of category ranks pushed so far, in push order. -/
structure BState where
  result : String
  index : List Nat
deriving DecidableEq, Repr

namespace cssSelectorBuilder

/-- The facade object starts with `result: ''` and `index: []`. -/
def initial : BState := ⟨"", []⟩

/-- `element(value)`: throws the duplicate error if rank 1 is already
recorded (clearing `index` first); otherwise returns a fresh copy whose
`result` is set to `value` (not appended) and whose `index` is `[1]`. -/
def element (value : String) (s : BState) : Except (SelErr × BState) BState :=
  if 1 ∈ s.index then
    .error (.duplicate, ⟨s.result, []⟩)
  else
    .ok ⟨value, [1]⟩

/-- `id(value)`: duplicate check on rank 2 first, then the order scan
(any recorded rank greater than 2), then pushes 2 and appends `#value`. -/
def id (value : String) (s : BState) : Except (SelErr × BState) BState :=
  if 2 ∈ s.index then
    .error (.duplicate, ⟨s.result, []⟩)
  else if ∃ item ∈ s.index, 2 < item then
    .error (.order, ⟨s.result, []⟩)
  else
    .ok ⟨s.result ++ ("#" ++ value), s.index ++ [2]⟩

/-- `class(value)`: order scan (any recorded rank greater than 3), then
pushes 3 and appends `.value`. There is no duplicate check. -/
def «class» (value : String) (s : BState) : Except (SelErr × BState) BState :=
  if ∃ item ∈ s.index, 3 < item then
    .error (.order, ⟨s.result, []⟩)
  else
    .ok ⟨s.result ++ ("." ++ value), s.index ++ [3]⟩

/-- `attr(value)`: order scan (any recorded rank greater than 4), then
pushes 4 and appends `[value]`. There is no duplicate check. -/
def attr (value : String) (s : BState) : Except (SelErr × BState) BState :=
  if ∃ item ∈ s.index, 4 < item then
    .error (.order, ⟨s.result, []⟩)
  else
    .ok ⟨s.result ++ ("[" ++ value ++ "]"), s.index ++ [4]⟩

/-- `pseudoClass(value)`: order scan (any recorded rank greater than 5), then
pushes 5 and appends `:value`. There is no duplicate check. -/
def pseudoClass (value : String) (s : BState) : Except (SelErr × BState) BState :=
  if ∃ item ∈ s.index, 5 < item then
    .error (.order, ⟨s.result, []⟩)
  else
    .ok ⟨s.result ++ (":" ++ value), s.index ++ [5]⟩

/-- `pseudoElement(value)`: order scan first (any recorded rank greater
than 6), then the duplicate check on rank 6, then pushes 6 and appends
`::value`. -/
def pseudoElement (value : String) (s : BState) : Except (SelErr × BState) BState :=
  if ∃ item ∈ s.index, 6 < item then
    .error (.order, ⟨s.result, []⟩)
  else if 6 ∈ s.index then
    .error (.duplicate, ⟨s.result, []⟩)
  else
    .ok ⟨s.result ++ ("::" ++ value), s.index ++ [6]⟩

/-- `stringify()`: returns `this.result` and resets `result` to the empty
string and `index` to the empty list. Modelled as returning the read value
together with the post-call state. -/
def stringify (s : BState) : String × BState := (s.result, ⟨"", []⟩)

/-- `combine(sel1, com, sel2)`: sets `this.result` to the stringify of sel1,
then the combinator wrapped in one space on each side, then the stringify of
sel2, and returns `this`; `this.index` is not touched. Total: no validation
of the combinator and no throw. -/
def combine (self sel1 : BState) (com : String) (sel2 : BState) : BState :=
  ⟨(stringify sel1).1 ++ (" " ++ com ++ " ") ++ (stringify sel2).1, self.index⟩

end cssSelectorBuilder

/-- Chaining an operation `n` times through the Except monad, used to state
that a fragment kind may repeat any number of times. -/
def iterateOp (f : BState → Except (SelErr × BState) BState) :
    Nat → BState → Except (SelErr × BState) BState
  | 0, s => .ok s
  | n + 1, s => (f s).bind (iterateOp f n)

/-- The attribute closing bracket and the pseudo-class colon are appended by
two separate calls; folding the two adjacent literals. -/
theorem append_brack_colon (x : String) : "]" ++ (":" ++ x) = "]:" ++ x := by
  rw [← String.append_assoc]
  congr 1

/-- C3: the full chain element, id, class, attr, pseudoClass, pseudoElement
started on the fresh builder succeeds, and `stringify` returns exactly
`tag#id.class[attr]:pseudoClass::pseudoElement` with no other separators. -/
theorem full_chain_stringify (tagv idv clsv attrv pcv pev : String) :
    ∃ s' : BState,
      (((((cssSelectorBuilder.element tagv cssSelectorBuilder.initial).bind
          (cssSelectorBuilder.id idv)).bind
          (cssSelectorBuilder.«class» clsv)).bind
          (cssSelectorBuilder.attr attrv)).bind
          (cssSelectorBuilder.pseudoClass pcv)).bind
          (cssSelectorBuilder.pseudoElement pev) = Except.ok s' ∧
      (cssSelectorBuilder.stringify s').1 =
        tagv ++ "#" ++ idv ++ "." ++ clsv ++ "[" ++ attrv ++ "]" ++ ":" ++ pcv
          ++ "::" ++ pev := by
  refine ⟨⟨tagv ++ "#" ++ idv ++ "." ++ clsv ++ "[" ++ attrv ++ "]" ++ ":" ++ pcv
      ++ "::" ++ pev, [1, 2, 3, 4, 5, 6]⟩, ?_, rfl⟩
  simp [cssSelectorBuilder.element, cssSelectorBuilder.id, cssSelectorBuilder.«class»,
    cssSelectorBuilder.attr, cssSelectorBuilder.pseudoClass,
    cssSelectorBuilder.pseudoElement, cssSelectorBuilder.initial, Except.bind,
    String.append_assoc, append_brack_colon]

/-- C1 (amended): for id, class, attr and pseudoClass, adding a fragment when
some recorded rank is strictly greater than the rank of the fragment being
added raises the order error (for id, provided rank 2 is not already
recorded, since the duplicate check runs first); the same scan exists in
pseudoElement (rank 6); in particular id after class raises the order error.
The element operation performs no order scan, so it is excluded. -/
theorem order_violation_raises (v : String) (s : BState) :
    ((2 ∉ s.index) → (∃ item ∈ s.index, 2 < item) →
        cssSelectorBuilder.id v s = .error (.order, ⟨s.result, []⟩)) ∧
    ((∃ item ∈ s.index, 3 < item) →
        cssSelectorBuilder.«class» v s = .error (.order, ⟨s.result, []⟩)) ∧
    ((∃ item ∈ s.index, 4 < item) →
        cssSelectorBuilder.attr v s = .error (.order, ⟨s.result, []⟩)) ∧
    ((∃ item ∈ s.index, 5 < item) →
        cssSelectorBuilder.pseudoClass v s = .error (.order, ⟨s.result, []⟩)) ∧
    ((∃ item ∈ s.index, 6 < item) →
        cssSelectorBuilder.pseudoElement v s = .error (.order, ⟨s.result, []⟩)) ∧
    (3 ∈ s.index → 2 ∉ s.index →
        cssSelectorBuilder.id v s = .error (.order, ⟨s.result, []⟩)) := by
  have hid : (2 ∉ s.index) → (∃ item ∈ s.index, 2 < item) →
      cssSelectorBuilder.id v s = .error (.order, ⟨s.result, []⟩) := by
    intro h1 h2
    simp [cssSelectorBuilder.id, h1, h2]
  refine ⟨hid, fun h => ?_, fun h => ?_, fun h => ?_, fun h => ?_,
    fun h3 h1 => hid h1 ⟨3, h3, by omega⟩⟩
  · simp [cssSelectorBuilder.«class», h]
  · simp [cssSelectorBuilder.attr, h]
  · simp [cssSelectorBuilder.pseudoClass, h]
  · simp [cssSelectorBuilder.pseudoElement, h]

/-- C1 witness: on the builder state reached by class, the id operation
raises the order error. -/
theorem order_violation_raises_witness :
    cssSelectorBuilder.id "x" ⟨".a", [3]⟩ = .error (.order, ⟨".a", []⟩) :=
  (order_violation_raises "x" ⟨".a", [3]⟩).2.2.2.2.2 (by decide) (by decide)

/-- C1 counterexample: element performs no order check. On a state whose
recorded ranks contain 3 (a class fragment), adding an element fragment
(rank 1, strictly lower) succeeds instead of raising the order error. -/
theorem element_skips_order_check :
    (1 < 3 ∧ 3 ∈ [3]) ∧
    cssSelectorBuilder.element "b" ⟨".a", [3]⟩ = Except.ok ⟨"b", [1]⟩ :=
  ⟨⟨by omega, by simp⟩, rfl⟩

/-- class preserves the invariant that every recorded rank is at most 3, and
succeeds under it. -/
theorem class_step (v : String) (s : BState) (h : ∀ r ∈ s.index, r ≤ 3) :
    cssSelectorBuilder.«class» v s =
      .ok ⟨s.result ++ ("." ++ v), s.index ++ [3]⟩ ∧
    ∀ r ∈ s.index ++ [3], r ≤ 3 := by
  constructor
  · have hno : ¬ ∃ item ∈ s.index, 3 < item := by
      rintro ⟨item, hmem, hlt⟩
      exact absurd (h item hmem) (by omega)
    simp [cssSelectorBuilder.«class», hno]
  · intro r hr
    rcases List.mem_append.mp hr with h1 | h1
    · exact h r h1
    · simp at h1
      omega

/-- attr preserves the invariant that every recorded rank is at most 4, and
succeeds under it. -/
theorem attr_step (v : String) (s : BState) (h : ∀ r ∈ s.index, r ≤ 4) :
    cssSelectorBuilder.attr v s =
      .ok ⟨s.result ++ ("[" ++ v ++ "]"), s.index ++ [4]⟩ ∧
    ∀ r ∈ s.index ++ [4], r ≤ 4 := by
  constructor
  · have hno : ¬ ∃ item ∈ s.index, 4 < item := by
      rintro ⟨item, hmem, hlt⟩
      exact absurd (h item hmem) (by omega)
    simp [cssSelectorBuilder.attr, hno]
  · intro r hr
    rcases List.mem_append.mp hr with h1 | h1
    · exact h r h1
    · simp at h1
      omega

/-- pseudoClass preserves the invariant that every recorded rank is at most 5,
and succeeds under it. -/
theorem pseudoClass_step (v : String) (s : BState) (h : ∀ r ∈ s.index, r ≤ 5) :
    cssSelectorBuilder.pseudoClass v s =
      .ok ⟨s.result ++ (":" ++ v), s.index ++ [5]⟩ ∧
    ∀ r ∈ s.index ++ [5], r ≤ 5 := by
  constructor
  · have hno : ¬ ∃ item ∈ s.index, 5 < item := by
      rintro ⟨item, hmem, hlt⟩
      exact absurd (h item hmem) (by omega)
    simp [cssSelectorBuilder.pseudoClass, hno]
  · intro r hr
    rcases List.mem_append.mp hr with h1 | h1
    · exact h r h1
    · simp at h1
      omega

/-- Iterating an operation that succeeds on, and preserves, an invariant never
fails. -/
theorem iterateOp_isOk (f : BState → Except (SelErr × BState) BState)
    (P : BState → Prop)
    (hf : ∀ s, P s → ∃ s', f s = .ok s' ∧ P s') :
    ∀ (n : Nat) (s : BState), P s → (iterateOp f n s).isOk = true := by
  intro n
  induction n with
  | zero => intro s _; rfl
  | succ n ih =>
    intro s hs
    obtain ⟨s', hfs, hs'⟩ := hf s hs
    simpa [iterateOp, hfs, Except.bind] using ih s' hs'

/-- C2: a second element, id or pseudo-element fragment raises the duplicate
error (for pseudoElement on states whose recorded ranks are all at most 6,
which holds for every rank the builder ever pushes), while class, attribute
and pseudo-class fragments may be added any number of times without error on
any state whose ranks do not exceed the rank of that fragment kind. -/
theorem duplicate_and_repeat_rules :
    (∀ (v : String) (s : BState), 1 ∈ s.index →
        cssSelectorBuilder.element v s = .error (.duplicate, ⟨s.result, []⟩)) ∧
    (∀ (v : String) (s : BState), 2 ∈ s.index →
        cssSelectorBuilder.id v s = .error (.duplicate, ⟨s.result, []⟩)) ∧
    (∀ (v : String) (s : BState), (∀ r ∈ s.index, r ≤ 6) → 6 ∈ s.index →
        cssSelectorBuilder.pseudoElement v s =
          .error (.duplicate, ⟨s.result, []⟩)) ∧
    (∀ (n : Nat) (v : String) (s : BState), (∀ r ∈ s.index, r ≤ 3) →
        (iterateOp (cssSelectorBuilder.«class» v) n s).isOk = true) ∧
    (∀ (n : Nat) (v : String) (s : BState), (∀ r ∈ s.index, r ≤ 4) →
        (iterateOp (cssSelectorBuilder.attr v) n s).isOk = true) ∧
    (∀ (n : Nat) (v : String) (s : BState), (∀ r ∈ s.index, r ≤ 5) →
        (iterateOp (cssSelectorBuilder.pseudoClass v) n s).isOk = true) := by
  refine ⟨fun v s h => ?_, fun v s h => ?_, fun v s hwf h => ?_,
    fun n v s h => ?_, fun n v s h => ?_, fun n v s h => ?_⟩
  · simp [cssSelectorBuilder.element, h]
  · simp [cssSelectorBuilder.id, h]
  · have hno : ¬ ∃ item ∈ s.index, 6 < item := by
      rintro ⟨item, hmem, hlt⟩
      exact absurd (hwf item hmem) (by omega)
    simp [cssSelectorBuilder.pseudoElement, hno, h]
  · exact iterateOp_isOk _ (fun t => ∀ r ∈ t.index, r ≤ 3)
      (fun t ht => ⟨_, (class_step v t ht).1, (class_step v t ht).2⟩) n s h
  · exact iterateOp_isOk _ (fun t => ∀ r ∈ t.index, r ≤ 4)
      (fun t ht => ⟨_, (attr_step v t ht).1, (attr_step v t ht).2⟩) n s h
  · exact iterateOp_isOk _ (fun t => ∀ r ∈ t.index, r ≤ 5)
      (fun t ht => ⟨_, (pseudoClass_step v t ht).1, (pseudoClass_step v t ht).2⟩) n s h

/-- C2 witness: a second element fragment on a state that already has rank 1
raises the duplicate error, and two consecutive class fragments on the fresh
builder succeed. -/
theorem duplicate_and_repeat_rules_witness :
    cssSelectorBuilder.element "p" ⟨"a", [1]⟩ =
      .error (.duplicate, ⟨"a", []⟩) ∧
    (iterateOp (cssSelectorBuilder.«class» "c") 2 ⟨"", []⟩).isOk = true :=
  ⟨duplicate_and_repeat_rules.1 "p" ⟨"a", [1]⟩ (by decide),
    duplicate_and_repeat_rules.2.2.2.1 2 "c" ⟨"", []⟩ (by decide)⟩

/-- C5: every error raised by a fragment-adding operation leaves the builder
with the recorded ranks cleared to the empty list and the text buffer
unchanged. -/
theorem error_keeps_result_clears_index (v : String) (s : BState) (e : SelErr)
    (t : BState) :
    (cssSelectorBuilder.element v s = .error (e, t) ∨
     cssSelectorBuilder.id v s = .error (e, t) ∨
     cssSelectorBuilder.«class» v s = .error (e, t) ∨
     cssSelectorBuilder.attr v s = .error (e, t) ∨
     cssSelectorBuilder.pseudoClass v s = .error (e, t) ∨
     cssSelectorBuilder.pseudoElement v s = .error (e, t)) →
    t.result = s.result ∧ t.index = [] := by
  intro h
  rcases h with h | h | h | h | h | h <;>
  · simp only [cssSelectorBuilder.element, cssSelectorBuilder.id,
      cssSelectorBuilder.«class», cssSelectorBuilder.attr,
      cssSelectorBuilder.pseudoClass, cssSelectorBuilder.pseudoElement] at h
    repeat' split at h
    all_goals
      first
        | exact Except.noConfusion h
        | (rw [Except.error.injEq, Prod.mk.injEq] at h
           obtain ⟨he, ht⟩ := h
           subst ht
           exact ⟨rfl, rfl⟩)

/-- C5 witness: the order error raised by id on a state holding a class
fragment keeps the text buffer and clears the rank list. -/
theorem error_keeps_result_clears_index_witness :
    (⟨".a", ([] : List Nat)⟩ : BState).result = (⟨".a", [3]⟩ : BState).result ∧
    (⟨".a", ([] : List Nat)⟩ : BState).index = [] :=
  error_keeps_result_clears_index "x" ⟨".a", [3]⟩ .order ⟨".a", []⟩
    (Or.inr (Or.inl (by simp [cssSelectorBuilder.id])))

/-- C6: combining two builders and stringifying yields the first text, a
space, the combinator, a space, and the second text; the combinator is any
string, with no validation and no error. -/
theorem combine_stringify (self a : BState) (com : String) (b : BState) :
    (cssSelectorBuilder.combine self a com b).result =
      (cssSelectorBuilder.stringify a).1 ++ " " ++ com ++ " " ++
        (cssSelectorBuilder.stringify b).1 ∧
    (cssSelectorBuilder.stringify (cssSelectorBuilder.combine self a com b)).1 =
      (cssSelectorBuilder.stringify a).1 ++ " " ++ com ++ " " ++
        (cssSelectorBuilder.stringify b).1 := by
  constructor <;>
    simp [cssSelectorBuilder.combine, cssSelectorBuilder.stringify,
      String.append_assoc]

/-- C4: `stringify` is a destructive read: it returns the accumulated text,
resets both the text buffer and the recorded ranks to empty, and a second
`stringify` right after returns the empty string. -/
theorem stringify_destructive (s : BState) :
    (cssSelectorBuilder.stringify s).1 = s.result ∧
    (cssSelectorBuilder.stringify s).2 = ⟨"", []⟩ ∧
    (cssSelectorBuilder.stringify ((cssSelectorBuilder.stringify s).2)).1 = "" :=
  ⟨rfl, rfl, rfl⟩

/-- Helper of `encodeToRot13` in the source: shifts an upper-case letter code
by thirteen, forward below 78 (the code of N) and backward below 91; any
other code yields the empty string. -/
def codeItem (code : Nat) : String :=
  if code < 78 then String.mk [Char.ofNat (code + 13)]
  else if code < 91 then String.mk [Char.ofNat (code - 13)]
  else ""

/-- The letter alphabet used by the membership test of `encodeToRot13`. -/
def letters : String := "ABCDEFGHIJKLMNOPQRSTUVWXYZabcdefghijklmnopqrstuvwxyz"

/-- The host lower-casing builtin, character by character (the source only
ever applies it to a single upper-case ASCII letter). -/
def jsToLower (s : String) : String := ⟨s.data.map Char.toLower⟩

/-- The per-character body of the map inside `encodeToRot13`: letters are
substituted (upper case directly, lower case through upper case and back to
lower case), anything else passes through. -/
def rot13Item (item : Char) : String :=
  if item ∈ letters.data then
    if item.toUpper = item then codeItem item.toNat
    else jsToLower (codeItem item.toUpper.toNat)
  else String.mk [item]

/-- `encodeToRot13(str)`: split into characters, map, join. -/
def encodeToRot13 (str : String) : String :=
  String.join (str.data.map rot13Item)

/-- Joining a non-empty list of strings peels off the head. -/
theorem join_cons (s : String) (l : List String) :
    String.join (s :: l) = s ++ String.join l := by
  apply String.ext
  simp

/-- `encodeToRot13` distributes over string append. -/
theorem encodeToRot13_append (a b : String) :
    encodeToRot13 (a ++ b) = encodeToRot13 a ++ encodeToRot13 b := by
  apply String.ext
  simp [encodeToRot13, String.data_append]

/-- `encodeToRot13` on a one-more-character string. -/
theorem encodeToRot13_cons (c : Char) (l : List Char) :
    encodeToRot13 ⟨c :: l⟩ = rot13Item c ++ encodeToRot13 ⟨l⟩ := by
  simp [encodeToRot13, join_cons]

/-- On each of the 52 letters, applying the encoding to the substituted
character gives back the original character. -/
theorem rot13Item_letter_inv :
    ∀ c ∈ letters.data, encodeToRot13 (rot13Item c) = String.mk [c] := by
  decide

/-- Characters outside the letter alphabet pass through unchanged. -/
theorem rot13Item_nonletter (c : Char) (hc : c ∉ letters.data) :
    rot13Item c = String.mk [c] := by
  simp [rot13Item, hc]

/-- Applying the encoding to the image of any single character gives back
that character. -/
theorem rot13Item_double (c : Char) :
    encodeToRot13 (rot13Item c) = String.mk [c] := by
  by_cases hc : c ∈ letters.data
  · exact rot13Item_letter_inv c hc
  · rw [rot13Item_nonletter c hc]
    rw [show String.mk [c] = (⟨[c]⟩ : String) from rfl, encodeToRot13_cons]
    rw [rot13Item_nonletter c hc]
    rw [show encodeToRot13 ⟨[]⟩ = "" from rfl, String.append_empty]

/-- C7: `encodeToRot13` is an involution on all strings, and every character
outside the letter alphabet passes through a single application unchanged. -/
theorem encodeToRot13_involution :
    (∀ s : String, encodeToRot13 (encodeToRot13 s) = s) ∧
    (∀ c : Char, c ∉ letters.data →
      encodeToRot13 (String.mk [c]) = String.mk [c]) := by
  constructor
  · intro s
    obtain ⟨l⟩ := s
    induction l with
    | nil => rfl
    | cons c l ih =>
      rw [encodeToRot13_cons, encodeToRot13_append, rot13Item_double, ih]
      apply String.ext
      simp
  · intro c hc
    rw [show String.mk [c] = (⟨[c]⟩ : String) from rfl, encodeToRot13_cons]
    rw [rot13Item_nonletter c hc]
    rw [show encodeToRot13 ⟨[]⟩ = "" from rfl, String.append_empty]

/-- C7 witness: the double application round-trips on a concrete string and
a concrete non-letter character passes through. -/
theorem encodeToRot13_involution_witness :
    encodeToRot13 (encodeToRot13 "Hello") = "Hello" ∧
    encodeToRot13 (String.mk ['1']) = String.mk ['1'] :=
  ⟨encodeToRot13_involution.1 "Hello",
    encodeToRot13_involution.2 '1' (by decide)⟩

/-- The fixed 52-card deck of `getCardId`, suit by suit, rank by rank. -/
def mass : List String := [
  "A♣", "2♣", "3♣", "4♣", "5♣", "6♣", "7♣", "8♣", "9♣", "10♣", "J♣", "Q♣",
  "K♣",
  "A♦", "2♦", "3♦", "4♦", "5♦", "6♦", "7♦", "8♦", "9♦", "10♦", "J♦", "Q♦",
  "K♦",
  "A♥", "2♥", "3♥", "4♥", "5♥", "6♥", "7♥", "8♥", "9♥", "10♥", "J♥", "Q♥",
  "K♥",
  "A♠", "2♠", "3♠", "4♠", "5♠", "6♠", "7♠", "8♠", "9♠", "10♠", "J♠", "Q♠",
  "K♠"]

/-- The host indexOf builtin: scan from the front carrying the current
position, return the first matching position or the sentinel -1. -/
def jsIndexOfAux (value : String) : List String → Nat → Int
  | [], _ => -1
  | x :: xs, k => if x = value then (k : Int) else jsIndexOfAux value xs (k + 1)

/-- `getCardId(value)`: the indexOf of the value in the deck. -/
def getCardId (value : String) : Int :=
  jsIndexOfAux value mass 0

/-- indexOf of an absent value is the sentinel -1, from any starting
position. -/
theorem jsIndexOfAux_not_mem (value : String) :
    ∀ (l : List String) (k : Nat), value ∉ l → jsIndexOfAux value l k = -1 := by
  intro l
  induction l with
  | nil => intro k _; rfl
  | cons x xs ih =>
    intro k h
    have hx : ¬ x = value := fun he => h (he ▸ List.mem_cons_self x xs)
    simp [jsIndexOfAux, hx, ih (k + 1) (fun hm => h (List.mem_cons_of_mem x hm))]

/-- C8: `getCardId` maps each of the 52 deck cards to its zero-based
position and every absent string to the sentinel -1; in particular the first
club ace is 0, the last spade king is 51 and the unknown card gives -1. -/
theorem getCardId_spec :
    (∀ i : Nat, ∀ h : i < mass.length, getCardId (mass.get ⟨i, h⟩) = i) ∧
    (∀ v : String, v ∉ mass → getCardId v = -1) ∧
    getCardId "A♣" = 0 ∧ getCardId "K♠" = 51 ∧ getCardId "Z♣" = -1 := by
  refine ⟨by decide, fun v hv => jsIndexOfAux_not_mem v mass 0 hv, by decide,
    by decide, by decide⟩

/-- C8 witness: the theorem applied at the first card and at a concrete
absent card. -/
theorem getCardId_spec_witness :
    getCardId (mass.get ⟨0, by decide⟩) = ((0 : Nat) : Int) ∧
    getCardId "Z♣" = -1 :=
  ⟨getCardId_spec.1 0 (by decide), getCardId_spec.2.1 "Z♣" (by decide)⟩

/-- `getRectangleString(width, height)`: one row per line index, the first
row with corner and dash characters, the last row with the bottom corners,
every other row with vertical bars and spaces; each row ends in a newline.
The inner loops run width minus two times (truncated at zero). -/
def getRectangleString (width height : Nat) : String :=
  String.join ((List.range height).map (fun i =>
    if i = 0 then "┌" ++ String.mk (List.replicate (width - 2) '─') ++ "┐\n"
    else if i = height - 1 then
      "└" ++ String.mk (List.replicate (width - 2) '─') ++ "┘\n"
    else "│" ++ String.mk (List.replicate (width - 2) ' ') ++ "│\n"))

/-- C9: the 4 by 3 rectangle is the three box rows, each ending in a
newline. -/
theorem getRectangleString_4_3 :
    getRectangleString 4 3 = "┌──┐\n│  │\n└──┘\n" := by
  decide

/-- The universe of host values the string-type predicate distinguishes:
primitive strings, String object instances, numbers, booleans, null,
undefined and any other object. Modelled from the spec for the host value
universe; the predicate itself is from the source. -/
inductive JSValue where
  | str : String → JSValue
  | strObject : String → JSValue
  | num : Int → JSValue
  | boolean : Bool → JSValue
  | nullV : JSValue
  | undef : JSValue
  | otherObject : JSValue
deriving DecidableEq, Repr

/-- The host typeof operator on the value universe: primitive strings give
the string tag, numbers the number tag, booleans the boolean tag, undefined
its own tag, and null and every object the object tag. -/
def typeof : JSValue → String
  | .str _ => "string"
  | .strObject _ => "object"
  | .num _ => "number"
  | .boolean _ => "boolean"
  | .nullV => "object"
  | .undef => "undefined"
  | .otherObject => "object"

/-- The host instanceof test against the String constructor: true exactly
for String object instances. -/
def instanceOfString : JSValue → Bool
  | .strObject _ => true
  | _ => false

/-- `isString(value)`: the typeof test first, the instanceof test as the
fallback. -/
def isString (value : JSValue) : Bool :=
  if typeof value = "string" then true else instanceOfString value

/-- C10: `isString` is true exactly on primitive strings and String object
instances, and false on null, undefined and every number. -/
theorem isString_spec :
    (∀ v : JSValue, isString v = true ↔
      ((∃ s, v = JSValue.str s) ∨ (∃ s, v = JSValue.strObject s))) ∧
    isString JSValue.nullV = false ∧
    isString JSValue.undef = false ∧
    (∀ n : Int, isString (JSValue.num n) = false) := by
  refine ⟨fun v => ?_, by decide, by decide, fun n => by simp [isString, typeof, instanceOfString]⟩
  cases v <;> simp [isString, typeof, instanceOfString]
